import Mathlib

/-!
Verification of the minimalci task orchestration engine against its
natural-language specification.  Each Python function under scrutiny is
shallow-embedded as an executable Lean definition translated directly from
the source (`minimalci/tasks.py`, `minimalci/executors.py`,
`minimalci/semaphore_subprocess.py`, `server/server.py`); theorems settle the
spec claims against those definitions.
-/

namespace Minimalci

/-! ## Task status model (`minimalci/tasks.py`) -/

/-- `class Status(enum.Enum)` from `tasks.py`. -/
inductive Status where
  | not_started
  | running
  | waiting_for_task
  | waiting_for_semaphore
  | success
  | failed
  | skipped
deriving DecidableEq, Repr

/-- `get_overall_status` from `tasks.py` lines 25-36, translated clause by
clause: `all(status == Status.skipped ...)`, `all(status in [success,
skipped] ...)`, `Status.running in status_list`, `all(status in
[waiting_for_semaphore, waiting_for_task] ...)`, `Status.waiting_for_task in
status_list`, final `return Status.failed`. -/
def get_overall_status (status_list : List Status) : Status :=
  if status_list.all (fun status => status == Status.skipped) then
    Status.skipped
  else if status_list.all
      (fun status => status == Status.success || status == Status.skipped) then
    Status.success
  else if status_list.contains Status.running then
    Status.running
  else if status_list.all
      (fun status => status == Status.waiting_for_semaphore
        || status == Status.waiting_for_task) then
    Status.waiting_for_semaphore
  else if status_list.contains Status.waiting_for_task then
    Status.waiting_for_task
  else
    Status.failed

/-- The overall-status derivation exactly as the spec words it (section 3):
skipped if every task is skipped; otherwise success if every task is
success or skipped; otherwise running if any task is running; else
waiting_for_semaphore if any task is waiting on one; else waiting_for_task
if any task is waiting for a task; else failed; and the empty task list
gives not_started. -/
def specOverallStatus (l : List Status) : Status :=
  if l = [] then Status.not_started
  else if ∀ s ∈ l, s = Status.skipped then Status.skipped
  else if ∀ s ∈ l, s = Status.success ∨ s = Status.skipped then Status.success
  else if Status.running ∈ l then Status.running
  else if Status.waiting_for_semaphore ∈ l then Status.waiting_for_semaphore
  else if Status.waiting_for_task ∈ l then Status.waiting_for_task
  else Status.failed

/-- The derivation the code actually implements, worded as the amended
claim: skipped if every task is skipped (hence also for the empty list);
otherwise success if every task is success or skipped; otherwise running if
any task is running; else waiting_for_semaphore if every task is
waiting_for_semaphore or waiting_for_task; else waiting_for_task if any
task is waiting_for_task; else failed. -/
def amendedOverallStatus (l : List Status) : Status :=
  if ∀ s ∈ l, s = Status.skipped then Status.skipped
  else if ∀ s ∈ l, s = Status.success ∨ s = Status.skipped then Status.success
  else if Status.running ∈ l then Status.running
  else if ∀ s ∈ l, s = Status.waiting_for_semaphore
      ∨ s = Status.waiting_for_task then Status.waiting_for_semaphore
  else if Status.waiting_for_task ∈ l then Status.waiting_for_task
  else Status.failed

end Minimalci

namespace Minimalci

/-! ## Task execution traces (`Task._run` and `Task.wait_for_tasks`,
`minimalci/tasks.py` lines 205-269)

The scheduler (`taskrunner.run_tasks`) runs `task._run()` once per task in
its own thread.  `_run` is straight-line code whose branching depends only
on: whether `run_after` is nonempty, whether `get_task_by_class` raises
(a listed class has no instance), whether some dependency did not succeed
(and `run_always` is false), whether `aquire_semaphore` is nonempty,
whether semaphore acquisition raises, and how `run()` exits.  We embed it
as a function from that finite configuration to the list of observable
events it performs, in program order. -/

/-- An observable side effect of `Task._run` on the task object: a status
assignment, setting `started`/`finished`, recording the exception, or
firing the `completed` event. -/
inductive Ev where
  | status (s : Status)
  | setStarted
  | setFinished
  | recordExc
  | setCompleted
deriving DecidableEq, Repr

/-- How the body protected by `_run`'s `try` terminates: normally, with a
`Skipped` exception, or with any other exception. -/
inductive Exc where
  | skipped
  | error
deriving DecidableEq, Repr

/-- How the user-supplied `run()` exits. -/
inductive RunOutcome where
  | ok
  | raisesSkipped
  | raisesError
deriving DecidableEq, Repr

instance : Fintype RunOutcome :=
  ⟨⟨{RunOutcome.ok, RunOutcome.raisesSkipped, RunOutcome.raisesError}, by decide⟩,
    fun x => by cases x <;> decide⟩

/-- The branch-relevant configuration of one task execution. -/
structure TaskCfg where
  /-- `self.run_after` is nonempty. -/
  hasRunAfter : Bool
  /-- some class in `run_after` has no instance in `state.tasks`, so
  `get_task_by_class` raises `Exception("Task not found")`. -/
  depLookupFails : Bool
  /-- some dependency finished without `Status.success` and `run_always`
  is false, so `wait_for_tasks` raises `Skipped`. -/
  depsFailed : Bool
  /-- `self.aquire_semaphore` is nonempty. -/
  hasSemaphore : Bool
  /-- `aquire_either_lock` raises (`Exception("Error getting lock")`). -/
  semaphoreFails : Bool
  /-- how `run()` exits. -/
  runOutcome : RunOutcome
deriving DecidableEq, Repr

instance : Fintype TaskCfg :=
  Fintype.ofEquiv (Bool × Bool × Bool × Bool × Bool × RunOutcome)
    { toFun := fun x => ⟨x.1, x.2.1, x.2.2.1, x.2.2.2.1, x.2.2.2.2.1, x.2.2.2.2.2⟩
      invFun := fun c =>
        ⟨c.hasRunAfter, c.depLookupFails, c.depsFailed, c.hasSemaphore,
          c.semaphoreFails, c.runOutcome⟩
      left_inv := fun _ => rfl
      right_inv := fun _ => rfl }

/-- `Task.wait_for_tasks(self.run_after)` (lines 254-269): returns
immediately when `run_after` is empty; otherwise sets status to
`waiting_for_task`, then either raises (`get_task_by_class` lookup failure),
raises `Skipped` (a dependency did not succeed and `run_always` is false),
or sets status to `running` and returns. -/
def wait_for_tasks (cfg : TaskCfg) : List Ev × Option Exc :=
  if ¬cfg.hasRunAfter then ([], none)
  else if cfg.depLookupFails then ([Ev.status Status.waiting_for_task], some Exc.error)
  else if cfg.depsFailed then ([Ev.status Status.waiting_for_task], some Exc.skipped)
  else ([Ev.status Status.waiting_for_task, Ev.status Status.running], none)

/-- The `print("Task started"); self.started = time.time(); self.status =
Status.running; self.run(); self.status = Status.success` block shared by
both branches of `_run` (lines 223-228 and 230-235). -/
def runBlock (o : RunOutcome) : List Ev × Option Exc :=
  match o with
  | RunOutcome.ok =>
      ([Ev.setStarted, Ev.status Status.running, Ev.status Status.success], none)
  | RunOutcome.raisesSkipped =>
      ([Ev.setStarted, Ev.status Status.running], some Exc.skipped)
  | RunOutcome.raisesError =>
      ([Ev.setStarted, Ev.status Status.running], some Exc.error)

/-- The part of `_run`'s `try` body after `wait_for_tasks` returns
normally (lines 208-235): with a semaphore, set status to
`waiting_for_semaphore`, acquire (which may raise), then the run block;
without one, just the run block. -/
def afterWait (cfg : TaskCfg) : List Ev × Option Exc :=
  if cfg.hasSemaphore then
    if cfg.semaphoreFails then
      ([Ev.status Status.waiting_for_semaphore], some Exc.error)
    else
      ([Ev.status Status.waiting_for_semaphore] ++ (runBlock cfg.runOutcome).1,
        (runBlock cfg.runOutcome).2)
  else runBlock cfg.runOutcome

/-- The whole `try` body of `_run` (lines 206-235). -/
def tryBody (cfg : TaskCfg) : List Ev × Option Exc :=
  match wait_for_tasks cfg with
  | (evs, some e) => (evs, some e)
  | (evs, none) => (evs ++ (afterWait cfg).1, (afterWait cfg).2)

/-- `Task._run` (lines 205-252): the `try` body, then the `except` clause
(`Skipped` sets status skipped; any other exception sets status failed and
records it), then the `finally` clause (set `finished`, save state, fire
`completed`). -/
def taskRun (cfg : TaskCfg) : List Ev :=
  (tryBody cfg).1
    ++ (match (tryBody cfg).2 with
        | none => []
        | some Exc.skipped => [Ev.status Status.skipped]
        | some Exc.error => [Ev.status Status.failed, Ev.recordExc])
    ++ [Ev.setFinished, Ev.setCompleted]

/-- The sequence of values assigned to `status` over the task's lifetime:
`Task.__init__` assigns `not_started`, then `_run` performs the status
events of its trace. -/
def statusTrace (cfg : TaskCfg) : List Status :=
  Status.not_started
    :: (taskRun cfg).filterMap fun e =>
        match e with
        | Ev.status s => some s
        | _ => none

/-- The status paths claimed by the spec, enumerated: `not_started →
(waiting_for_task)? → (waiting_for_semaphore)? → running →
{success|failed}`, or the same prefix ending in `skipped`. -/
def specStatusPaths : List (List Status) :=
  let chains : List (List Status) :=
    [[Status.not_started, Status.running],
     [Status.not_started, Status.waiting_for_task, Status.running],
     [Status.not_started, Status.waiting_for_semaphore, Status.running],
     [Status.not_started, Status.waiting_for_task, Status.waiting_for_semaphore,
       Status.running]]
  (chains.map fun c => c ++ [Status.success])
    ++ (chains.map fun c => c ++ [Status.failed])
    ++ ((chains.flatMap fun c =>
          (List.range c.length).map fun n => c.take (n + 1)).map
        fun p => p ++ [Status.skipped])

/-- The status paths the code actually produces, enumerated (the amended
claim): the dependency wait ends by assigning `running` before any
semaphore wait, so the path is `not_started → (waiting_for_task →
running)? → (waiting_for_semaphore)? → running → {success|failed}`, with
early termination in `failed` directly after `waiting_for_task` (dependency
lookup error) or `waiting_for_semaphore` (acquisition error), and in
`skipped` directly after `waiting_for_task` (unsuccessful dependency) or
after `running` (`run()` raised `Skipped`). -/
def amendedStatusPaths : List (List Status) :=
  let ns := Status.not_started
  let wft := Status.waiting_for_task
  let wfs := Status.waiting_for_semaphore
  let run := Status.running
  let terminalsOf : List Status → List (List Status) := fun c =>
    [c ++ [Status.success], c ++ [Status.failed], c ++ [Status.skipped]]
  terminalsOf [ns, run]
    ++ terminalsOf [ns, wfs, run]
    ++ terminalsOf [ns, wft, run, run]
    ++ terminalsOf [ns, wft, run, wfs, run]
    ++ [[ns, wfs, Status.failed],
        [ns, wft, run, wfs, Status.failed],
        [ns, wft, Status.failed],
        [ns, wft, Status.skipped]]

/-- Decides that `finished` is set exactly once and only non-status events
(the state save and the `completed` event) follow it. -/
def finishedOnceAfterFinalStatus (t : List Ev) : Bool :=
  t.count Ev.setFinished == 1
    && (t.dropWhile fun e => !(e == Ev.setFinished)).all fun e =>
        match e with
        | Ev.status _ => false
        | _ => true

/-! ## Process runner (`minimalci/executors.py`) -/

/-- `SENSORED = "********"` (executors.py line 19). -/
def SENSORED : String := "********"

/-- `class ProcessError(Exception)` (executors.py lines 29-34). -/
structure ProcessError where
  message : String
  stdout : Option String := none
  stderr : Option String := none
  exit_code : Option Int := none
deriving DecidableEq, Repr

/-- Python `str.rstrip()` on the decoded line (trailing whitespace,
including the newline kept by `readline`, is removed). -/
def pyRstrip (s : String) : String :=
  String.mk (s.data.reverse.dropWhile Char.isWhitespace).reverse

/-- The per-line processing of `stream_handler` (executors.py lines
161-165): decode and `rstrip` the raw line, replace each censor item with
`SENSORED`, then remove every `"\r"`. -/
def processLine (censor : List String) (raw : String) : String :=
  ((censor.foldl (fun line item => line.replace item SENSORED) (pyRstrip raw)).replace
    "\r" "")

/-- `stream_handler` (executors.py lines 151-170) as a function of the raw
lines read from the stream: the loop accumulates `output += raw_line`
untouched and, separately, produces the processed line that is put on the
output queue and/or printed.  Returns `(returned bytes, processed lines)`. -/
def stream_handler (stream : List String) (censor : List String) :
    String × List String :=
  stream.foldl
    (fun acc raw => (acc.1 ++ raw, acc.2 ++ [processLine censor raw]))
    ("", [])

/-- `run_command` (executors.py lines 204-237) as a function of the kill
signal state at entry, the child's raw stdout/stderr lines, and its exit
code: an already-set kill signal fails before spawning; otherwise the
stream handlers run to completion and a nonzero exit code raises
`ProcessError` carrying the handlers' accumulated (raw) stdout and stderr,
while exit code zero returns the accumulated stdout. -/
def run_command (kill_signal_set : Bool) (stdoutLines stderrLines : List String)
    (exitCode : Int) (censor : List String) : Except ProcessError String :=
  if kill_signal_set then
    Except.error { message := "Process start cancelled" }
  else
    let stdout := stream_handler stdoutLines censor
    let stderr := stream_handler stderrLines censor
    if exitCode ≠ 0 then
      Except.error
        { message := "Exit code: " ++ toString exitCode
          stdout := some stdout.1
          stderr := some stderr.1
          exit_code := some exitCode }
    else
      Except.ok stdout.1

/-- A signal escalation step of `kill_thread`. -/
inductive Sig where
  | sigterm
  | sigkill
deriving DecidableEq, Repr

/-- The wait-loop exit test of `kill_thread` (executors.py lines 182-187):
after each one-second wait, the loop is still running only while the kill
signal is unset and the process has not exited, and the code then executes
`if timeout is not None and (time.time() - start) < timeout: print(...);
break`.  This function is true exactly when that iteration leaves the loop
through the timeout branch. -/
def kill_thread_times_out (kill_signal_set : Bool) (process_exited : Bool)
    (elapsed : Nat) (timeout : Option Nat) : Bool :=
  !kill_signal_set && !process_exited
    && (match timeout with
        | none => false
        | some t => decide (elapsed < t))

/-- The escalation performed after `kill_thread` leaves its wait loop
(executors.py lines 190-201), given whether the process is still running at
the check and whether it exits within the 10-second grace after `SIGTERM`:
`SIGTERM` to the process group, `wait(10)`, then `SIGKILL` and another
`wait(10)` only if the first wait timed out. -/
def kill_signals (still_running_at_check : Bool)
    (exits_within_10s_of_term : Bool) : List Sig :=
  if still_running_at_check then
    Sig.sigterm :: (if exits_within_10s_of_term then [] else [Sig.sigkill])
  else []

/-- The top-level names defined by `minimalci/executors.py`, transcribed
from the source. -/
def executorsModuleNames : List String :=
  ["SENSORED", "global_kill_signal", "global_kill_signal_handler",
   "ProcessError", "random_tmp_file_path", "assert_path_in_tmp",
   "safe_del_tmp_file", "safe_del_tmp_file_atexit", "Stash", "print_color",
   "print_red", "print_green", "print_yellow", "print_command",
   "print_output", "local_shell", "ssh_shell", "stream_handler",
   "kill_thread", "run_command", "run_docker_exec_command", "Executor",
   "Local", "Ssh", "LocalContainer", "LocalWithForwardedDockerSock"]

/-- The names `minimalci/tasks.py` line 11 imports from
`minimalci.executors`: `from minimalci.executors import NonZeroExit,
global_kill_signal`. -/
def tasksImportsFromExecutors : List String :=
  ["NonZeroExit", "global_kill_signal"]

/-! ## Safe deletion of temp paths (`minimalci/executors.py` 44-62,
367-387)

`pathlib.Path` is modeled by its `is_absolute()` flag and its normalized
component list (`pathlib` collapses slashes and drops `.` but keeps `..`);
`path.parents[0]` is the path with the last component dropped (for the
root, `parents` is empty and indexing raises, which we fold into the
not-`/tmp` failure since both raise). -/

/-- A `pathlib.Path`: absolute flag plus components. -/
structure PyPath where
  absolute : Bool
  parts : List String
deriving DecidableEq, Repr

/-- `path.parents[0]`, i.e. `path.parent`. -/
def PyPath.parent (p : PyPath) : PyPath :=
  ⟨p.absolute, p.parts.dropLast⟩

/-- `Path("/tmp")`. -/
def tmpRoot : PyPath := ⟨true, ["tmp"]⟩

/-- `assert_path_in_tmp` (executors.py lines 48-52): raise if the path is
not absolute or its parent is not `/tmp`. -/
def assert_path_in_tmp (path : PyPath) : Except String Unit :=
  if !path.absolute then
    Except.error "Temp path is not absolute"
  else if path.parent ≠ tmpRoot then
    Except.error "Temp path does not start with /tmp/"
  else
    Except.ok ()

/-- A file system: the set of existing paths. -/
def FS := List PyPath

/-- `safe_del_tmp_file` (executors.py lines 55-57): `assert_path_in_tmp`
then `os.unlink`.  Returns the raised error (if any) and the resulting file
system; on an error nothing has been deleted. -/
def safe_del_tmp_file (full_path : PyPath) (fs : FS) : Option String × FS :=
  match assert_path_in_tmp full_path with
  | Except.error e => (some e, fs)
  | Except.ok () => (none, List.filter (fun q => q ≠ full_path) fs)

/-- `safe_del_tmp_file_atexit` (executors.py lines 60-62):
`assert_path_in_tmp`, then register `safe_del_tmp_file` for the path to run
at exit.  Returns the raised error (if any) and the registered callback. -/
def safe_del_tmp_file_atexit (full_path : PyPath) :
    Option String × Option (FS → Option String × FS) :=
  match assert_path_in_tmp full_path with
  | Except.error e => (some e, none)
  | Except.ok () => (none, some (safe_del_tmp_file full_path))

/-- `Executor._safe_del_tmp_file` (executors.py lines 367-372):
`assert_path_in_tmp`, then run `rm <path>` through the executor's shell.
Returns the raised error (if any) and the shell command issued (if any). -/
def Executor_safe_del_tmp_file (path : PyPath) : Option String × Option String :=
  match assert_path_in_tmp path with
  | Except.error e => (some e, none)
  | Except.ok () => (none, some ("rm /" ++ "/".intercalate path.parts))

/-- `Executor._safe_del_tmp_dir` (executors.py lines 374-379):
`assert_path_in_tmp`, then run `rm -r <path>` through the executor's
shell. -/
def Executor_safe_del_tmp_dir (path : PyPath) : Option String × Option String :=
  match assert_path_in_tmp path with
  | Except.error e => (some e, none)
  | Except.ok () => (none, some ("rm -r /" ++ "/".intercalate path.parts))

/-! ## HTTP identifier validation (`server/server.py` lines 108-126)

`verify_identifier` is embedded over `List Char`.  `identifier.split("_")`
splits on every underscore; the two-element unpacking raises `ValueError`
otherwise, as does `int(timestamp)` on a non-integer literal.  Those are
ordinary exceptions (not `ClientError`), so Flask answers 500; only
`ClientError` is mapped to a 400 response by the registered error
handler. -/

/-- Python `str.split("_")` (splits at every underscore, keeping empty
pieces; the empty string yields one empty piece). -/
def splitU : List Char → List (List Char)
  | [] => [[]]
  | c :: rest =>
    match splitU rest with
    | [] => []
    | s :: ss => if c = '_' then [] :: s :: ss else (c :: s) :: ss

/-- The whitespace characters stripped by Python `int(str)` (ASCII
portion). -/
def pyWhitespace : List Char := [' ', '\t', '\n', '\r', '\x0b', '\x0c']

/-- Strip `pyWhitespace` from both ends. -/
def pyStrip (l : List Char) : List Char :=
  ((l.dropWhile fun c => pyWhitespace.contains c).reverse.dropWhile
    fun c => pyWhitespace.contains c).reverse

/-- Whether Python `int(s)` succeeds on `s`: optional surrounding
whitespace, an optional sign, then at least one decimal digit.  (Python
also allows underscores between digits and non-ASCII digits; neither can
occur here since the argument is an underscore-free piece of the ASCII
identifier.) -/
def pyIntValid (l : List Char) : Bool :=
  match pyStrip l with
  | [] => false
  | c :: rest =>
    let digits := if c == '+' || c == '-' then rest else c :: rest
    !digits.isEmpty && digits.all Char.isDigit

/-- `legal_chars = string.ascii_letters + string.digits` membership
(server.py line 123): ASCII letters and digits. -/
def legalShaChar (c : Char) : Bool := c.isAlpha || c.isDigit

/-- The outcome of `verify_identifier`: return normally, raise
`ClientError` (handled as HTTP 400), or raise an ordinary exception such as
`ValueError` (unhandled, HTTP 500). -/
inductive VerifyOutcome where
  | ok
  | clientError (msg : String)
  | valueError
deriving DecidableEq, Repr

/-- `verify_identifier` (server.py lines 117-126): `timestamp, sha =
identifier.split("_")` (ValueError unless exactly two pieces),
`int(timestamp)` (ValueError on failure), then `ClientError("Invalid
sha")` if `len(sha) != 40` or any sha character is not an ASCII letter or
digit. -/
def verify_identifier (identifier : List Char) : VerifyOutcome :=
  match splitU identifier with
  | [timestamp, sha] =>
    if !pyIntValid timestamp then VerifyOutcome.valueError
    else if sha.length ≠ 40 then VerifyOutcome.clientError "Invalid sha"
    else if !sha.all legalShaChar then VerifyOutcome.clientError "Invalid sha"
    else VerifyOutcome.ok
  | _ => VerifyOutcome.valueError

/-- The HTTP status produced for each outcome: normal return lets the view
proceed (200), `ClientError` is turned into 400 by the
`@app.errorhandler(ClientError)` handler (`status_code = 400`, server.py
lines 108-114), and any other exception is answered by Flask with 500. -/
def responseStatus : VerifyOutcome → Nat
  | VerifyOutcome.ok => 200
  | VerifyOutcome.clientError _ => 400
  | VerifyOutcome.valueError => 500

/-- The spec's identifier pattern, from the spec's words: a match of
`^\d+_[A-Za-z0-9]{40}$` is a nonempty digit string, an underscore, then
exactly 40 ASCII alphanumerics.  Since neither `\d` nor `[A-Za-z0-9]`
matches an underscore, the digit part of any match is exactly the maximal
digit prefix of the string, so this function decides the regex. -/
def matchesIdentifierPattern (l : List Char) : Bool :=
  let d := l.takeWhile Char.isDigit
  let rest := l.dropWhile Char.isDigit
  !d.isEmpty
    && (match rest with
        | '_' :: sha => sha.length == 40 && sha.all legalShaChar
        | _ => false)

/-! ## Semaphore helper `--read` mode
(`minimalci/semaphore_subprocess.py` lines 19-67, 113-124)

`read_and_update_queue` is embedded as a function of the parsed queue-file
content, the set of pids reported running by `ps` (zombies excluded), and
the helper's own pid; it returns the `(concurrency, verified_queue)` result
and the file content after the call.  The `--read` entry point calls it
with `add_self=False, remove_self=False`. -/

/-- One queue entry `{"pid": int, "description": str}`. -/
structure QEntry where
  pid : Nat
  description : String
deriving DecidableEq, Repr

/-- The queue file content `{"concurrency": int, "queue": [...]}`. -/
structure QFile where
  concurrency : Int
  queue : List QEntry
deriving DecidableEq, Repr

/-- `read_and_update_queue` (semaphore_subprocess.py lines 19-67): prune
entries whose pid is not running, optionally append the helper's own pid,
optionally remove it, and rewrite the file only when the resulting queue
differs from the stored one. -/
def read_and_update_queue (file : QFile) (running_pids : List Nat)
    (self_pid : Nat) (self_description : String)
    (add_self remove_self : Bool) : (Int × List QEntry) × QFile :=
  let queue := file.queue
  let verified0 := queue.filter fun entry => running_pids.contains entry.pid
  let verified1 :=
    if add_self && !((verified0.map QEntry.pid).contains self_pid) then
      verified0 ++ [⟨self_pid, self_description⟩]
    else verified0
  let verified2 :=
    if remove_self then verified1.filter (fun e => e.pid != self_pid)
    else verified1
  let newFile : QFile :=
    if verified2 ≠ queue then ⟨file.concurrency, verified2⟩ else file
  ((file.concurrency, verified2), newFile)

/-! ## State snapshot serialization (`minimalci/tasks.py` lines 43-114)

`StateSnapshot.save` is `json.dumps(dataclasses.asdict(self))`;
`StateSnapshot.load` is `dict_to_dataclass(StateSnapshot,
json.loads(text))`.  Python floats round-trip exactly through
`json.dumps`/`json.loads` (shortest-repr serialization), and `asdict`
preserves field declaration order, so the text layer is the identity on
the parsed JSON tree; we model JSON values directly, with numbers as exact
rationals and the int/float token distinction kept (`isinstance(data,
float)` rejects JSON integers).  `dict_to_dataclass` is embedded per
branch: dataclass fields are dispatched by name (`fieldtypes[key]` raises
`KeyError` on unknown names), `Optional[float]` maps `None` to `None`,
`List[T]` iterates the value with Python `for item in data` semantics —
an object iterates its keys and a string its characters, so a non-array
value is not necessarily rejected — and simple types check
`isinstance`. -/

/-- A parsed JSON value as produced by `json.loads`. -/
inductive Json where
  | null
  | jbool (b : Bool)
  | jint (n : Int)
  | jfloat (q : ℚ)
  | jstr (s : String)
  | jarr (xs : List Json)
  | jobj (kvs : List (String × Json))

/-- `@dataclass TaskSnapshot` (tasks.py lines 43-52). -/
structure TaskSnapshot where
  name : String
  status : String
  run_after : List String
  run_always : Bool
  aquire_semaphore : List String
  aquired_semaphore : String
  started : Option ℚ
  finished : Option ℚ
deriving DecidableEq, Repr

/-- `@dataclass StateSnapshot` (tasks.py lines 55-65). -/
structure StateSnapshot where
  commit : String
  branch : String
  repo_name : String
  log_url : String
  identifier : String
  status : String
  started : ℚ
  finished : Option ℚ
  tasks : List TaskSnapshot
deriving DecidableEq, Repr

/-- `dict_to_dataclass(str, data)`: `isinstance(data, str)` or
`TypeError`. -/
def parsePyStr : Json → Except String String
  | Json.jstr s => Except.ok s
  | _ => Except.error "TypeError: expected str"

/-- `dict_to_dataclass(float, data)`: `isinstance(data, float)` — JSON
integer tokens parse to `int`, which is not a `float`, so only float
tokens pass. -/
def parsePyFloat : Json → Except String ℚ
  | Json.jfloat q => Except.ok q
  | _ => Except.error "TypeError: expected float"

/-- `dict_to_dataclass(bool, data)`: `isinstance(data, bool)` or
`TypeError`. -/
def parsePyBool : Json → Except String Bool
  | Json.jbool b => Except.ok b
  | _ => Except.error "TypeError: expected bool"

/-- `dict_to_dataclass(Optional[float], data)`: `None if data is None else
dict_to_dataclass(float, data)`. -/
def parseOptFloat : Json → Except String (Option ℚ)
  | Json.null => Except.ok none
  | j => (parsePyFloat j).map some

/-- Python `for item in data` over a JSON value: arrays iterate their
elements, objects their keys, strings their characters; everything else
raises `TypeError: not iterable`. -/
def pyIter : Json → Except String (List Json)
  | Json.jarr xs => Except.ok xs
  | Json.jobj kvs => Except.ok (kvs.map fun kv => Json.jstr kv.1)
  | Json.jstr s => Except.ok (s.data.map fun c => Json.jstr (String.mk [c]))
  | _ => Except.error "TypeError: not iterable"

/-- The list comprehension `[dict_to_dataclass(item_type, item) for item in
data]`: parse each item, propagating the first failure. -/
def parseEach {α : Type} (p : Json → Except String α) :
    List Json → Except String (List α)
  | [] => Except.ok []
  | j :: rest =>
    match p j with
    | Except.error e => Except.error e
    | Except.ok x =>
      match parseEach p rest with
      | Except.error e => Except.error e
      | Except.ok xs => Except.ok (x :: xs)

/-- `dict_to_dataclass(List[str], data)`. -/
def parseListStr (j : Json) : Except String (List String) :=
  match pyIter j with
  | Except.error e => Except.error e
  | Except.ok items => parseEach parsePyStr items

/-- Partially collected keyword arguments for the `TaskSnapshot`
constructor call. -/
structure TaskAcc where
  name : Option String := none
  status : Option String := none
  run_after : Option (List String) := none
  run_always : Option Bool := none
  aquire_semaphore : Option (List String) := none
  aquired_semaphore : Option String := none
  started : Option (Option ℚ) := none
  finished : Option (Option ℚ) := none

/-- The declared field names of `TaskSnapshot`, in declaration order. -/
def taskFieldNames : List String :=
  ["name", "status", "run_after", "run_always", "aquire_semaphore",
   "aquired_semaphore", "started", "finished"]

/-- One step of the dict comprehension for `TaskSnapshot`: look the key up
in `fieldtypes` (`KeyError` when absent) and parse the value at the
declared field type. -/
def taskSetField (acc : TaskAcc) (k : String) (v : Json) :
    Except String TaskAcc :=
  if k = "name" then
    (parsePyStr v).map fun x => { acc with name := some x }
  else if k = "status" then
    (parsePyStr v).map fun x => { acc with status := some x }
  else if k = "run_after" then
    (parseListStr v).map fun x => { acc with run_after := some x }
  else if k = "run_always" then
    (parsePyBool v).map fun x => { acc with run_always := some x }
  else if k = "aquire_semaphore" then
    (parseListStr v).map fun x => { acc with aquire_semaphore := some x }
  else if k = "aquired_semaphore" then
    (parsePyStr v).map fun x => { acc with aquired_semaphore := some x }
  else if k = "started" then
    (parseOptFloat v).map fun x => { acc with started := some x }
  else if k = "finished" then
    (parseOptFloat v).map fun x => { acc with finished := some x }
  else
    Except.error ("KeyError: " ++ k)

/-- The dict comprehension `{key: dict_to_dataclass(fieldtypes[key], value)
for key, value in data.items()}`, processed in item order with the first
failure propagated. -/
def parseFields {α : Type} (setF : α → String → Json → Except String α) :
    α → List (String × Json) → Except String α
  | acc, [] => Except.ok acc
  | acc, kv :: rest =>
    match setF acc kv.1 kv.2 with
    | Except.error e => Except.error e
    | Except.ok acc2 => parseFields setF acc2 rest

/-- `dict_to_dataclass(TaskSnapshot, data)`: `data.items()` requires a
dict; every key must be a declared field; the constructor call then
requires every field to have been supplied. -/
def parseTaskSnapshot (j : Json) : Except String TaskSnapshot :=
  match j with
  | Json.jobj kvs =>
    match parseFields taskSetField {} kvs with
    | Except.error e => Except.error e
    | Except.ok acc =>
      match acc.name, acc.status, acc.run_after, acc.run_always,
          acc.aquire_semaphore, acc.aquired_semaphore, acc.started,
          acc.finished with
      | some n, some st, some ra, some rw, some aq, some aqd, some s,
          some f =>
          Except.ok ⟨n, st, ra, rw, aq, aqd, s, f⟩
      | _, _, _, _, _, _, _, _ =>
          Except.error "TypeError: missing required argument"
  | _ => Except.error "AttributeError: items"

/-- `dict_to_dataclass(List[TaskSnapshot], data)`. -/
def parseListTask (j : Json) : Except String (List TaskSnapshot) :=
  match pyIter j with
  | Except.error e => Except.error e
  | Except.ok items => parseEach parseTaskSnapshot items

/-- Partially collected keyword arguments for the `StateSnapshot`
constructor call. -/
structure StateAcc where
  commit : Option String := none
  branch : Option String := none
  repo_name : Option String := none
  log_url : Option String := none
  identifier : Option String := none
  status : Option String := none
  started : Option ℚ := none
  finished : Option (Option ℚ) := none
  tasks : Option (List TaskSnapshot) := none

/-- The declared field names of `StateSnapshot`, in declaration order. -/
def stateFieldNames : List String :=
  ["commit", "branch", "repo_name", "log_url", "identifier", "status",
   "started", "finished", "tasks"]

/-- One step of the dict comprehension for `StateSnapshot`. -/
def stateSetField (acc : StateAcc) (k : String) (v : Json) :
    Except String StateAcc :=
  if k = "commit" then
    (parsePyStr v).map fun x => { acc with commit := some x }
  else if k = "branch" then
    (parsePyStr v).map fun x => { acc with branch := some x }
  else if k = "repo_name" then
    (parsePyStr v).map fun x => { acc with repo_name := some x }
  else if k = "log_url" then
    (parsePyStr v).map fun x => { acc with log_url := some x }
  else if k = "identifier" then
    (parsePyStr v).map fun x => { acc with identifier := some x }
  else if k = "status" then
    (parsePyStr v).map fun x => { acc with status := some x }
  else if k = "started" then
    (parsePyFloat v).map fun x => { acc with started := some x }
  else if k = "finished" then
    (parseOptFloat v).map fun x => { acc with finished := some x }
  else if k = "tasks" then
    (parseListTask v).map fun x => { acc with tasks := some x }
  else
    Except.error ("KeyError: " ++ k)

/-- `StateSnapshot.load` after `json.loads`: `dict_to_dataclass(
StateSnapshot, data)` (tasks.py lines 71-74 and 80-114). -/
def parseStateSnapshot (j : Json) : Except String StateSnapshot :=
  match j with
  | Json.jobj kvs =>
    match parseFields stateSetField {} kvs with
    | Except.error e => Except.error e
    | Except.ok acc =>
      match acc.commit, acc.branch, acc.repo_name, acc.log_url,
          acc.identifier, acc.status, acc.started, acc.finished,
          acc.tasks with
      | some c, some b, some rn, some lu, some id, some st, some s,
          some f, some ts =>
          Except.ok ⟨c, b, rn, lu, id, st, s, f, ts⟩
      | _, _, _, _, _, _, _, _, _ =>
          Except.error "TypeError: missing required argument"
  | _ => Except.error "AttributeError: items"

/-- `dataclasses.asdict` on an `Optional[float]` field. -/
def optFloatToJson : Option ℚ → Json
  | none => Json.null
  | some q => Json.jfloat q

/-- `dataclasses.asdict` on a `TaskSnapshot`, fields in declaration
order. -/
def taskSnapshotToJson (t : TaskSnapshot) : Json :=
  Json.jobj
    [("name", Json.jstr t.name),
     ("status", Json.jstr t.status),
     ("run_after", Json.jarr (t.run_after.map Json.jstr)),
     ("run_always", Json.jbool t.run_always),
     ("aquire_semaphore", Json.jarr (t.aquire_semaphore.map Json.jstr)),
     ("aquired_semaphore", Json.jstr t.aquired_semaphore),
     ("started", optFloatToJson t.started),
     ("finished", optFloatToJson t.finished)]

/-- `StateSnapshot.save` up to the exact text layer:
`dataclasses.asdict(self)` as a JSON tree, fields in declaration order. -/
def stateSnapshotToJson (x : StateSnapshot) : Json :=
  Json.jobj
    [("commit", Json.jstr x.commit),
     ("branch", Json.jstr x.branch),
     ("repo_name", Json.jstr x.repo_name),
     ("log_url", Json.jstr x.log_url),
     ("identifier", Json.jstr x.identifier),
     ("status", Json.jstr x.status),
     ("started", Json.jfloat x.started),
     ("finished", optFloatToJson x.finished),
     ("tasks", Json.jarr (x.tasks.map taskSnapshotToJson))]

/-- A well-formed snapshot document except that the `tasks` field holds an
empty JSON object instead of an array. -/
def badTasksKvs : List (String × Json) :=
  [("commit", Json.jstr "c0"),
   ("branch", Json.jstr "main"),
   ("repo_name", Json.jstr "repo"),
   ("log_url", Json.jstr "url"),
   ("identifier", Json.jstr "1_x"),
   ("status", Json.jstr "success"),
   ("started", Json.jfloat 3),
   ("finished", Json.null),
   ("tasks", Json.jobj [])]

/-- A well-typed task object document. -/
def exampleTaskKvs : List (String × Json) :=
  [("name", Json.jstr "Build"),
   ("status", Json.jstr "success"),
   ("run_after", Json.jarr []),
   ("run_always", Json.jbool false),
   ("aquire_semaphore", Json.jarr []),
   ("aquired_semaphore", Json.jstr ""),
   ("started", Json.null),
   ("finished", Json.null)]

/-- A fully well-typed snapshot document with one task. -/
def exampleStateKvs : List (String × Json) :=
  [("commit", Json.jstr "c0"),
   ("branch", Json.jstr "main"),
   ("repo_name", Json.jstr "repo"),
   ("log_url", Json.jstr "url"),
   ("identifier", Json.jstr "1_x"),
   ("status", Json.jstr "success"),
   ("started", Json.jfloat 3),
   ("finished", Json.null),
   ("tasks", Json.jarr [Json.jobj exampleTaskKvs])]

/-- The value `exampleStateKvs` loads to. -/
def exampleState : StateSnapshot :=
  ⟨"c0", "main", "repo", "url", "1_x", "success", 3, none,
    [⟨"Build", "success", [], false, [], "", none, none⟩]⟩

/-- `exampleStateKvs` with `started` holding a JSON integer token (Python
`int`, not a `float`). -/
def mismatchStartedIntKvs : List (String × Json) :=
  [("commit", Json.jstr "c0"),
   ("branch", Json.jstr "main"),
   ("repo_name", Json.jstr "repo"),
   ("log_url", Json.jstr "url"),
   ("identifier", Json.jstr "1_x"),
   ("status", Json.jstr "success"),
   ("started", Json.jint 3),
   ("finished", Json.null),
   ("tasks", Json.jarr [Json.jobj exampleTaskKvs])]

/-- `exampleStateKvs` with `started` holding a string. -/
def mismatchStartedStrKvs : List (String × Json) :=
  [("commit", Json.jstr "c0"),
   ("branch", Json.jstr "main"),
   ("repo_name", Json.jstr "repo"),
   ("log_url", Json.jstr "url"),
   ("identifier", Json.jstr "1_x"),
   ("status", Json.jstr "success"),
   ("started", Json.jstr "3.0"),
   ("finished", Json.null),
   ("tasks", Json.jarr [Json.jobj exampleTaskKvs])]

/-- `exampleStateKvs` whose task object holds a JSON integer in the
bool-typed `run_always` field. -/
def mismatchNestedBoolKvs : List (String × Json) :=
  [("commit", Json.jstr "c0"),
   ("branch", Json.jstr "main"),
   ("repo_name", Json.jstr "repo"),
   ("log_url", Json.jstr "url"),
   ("identifier", Json.jstr "1_x"),
   ("status", Json.jstr "success"),
   ("started", Json.jfloat 3),
   ("finished", Json.null),
   ("tasks", Json.jarr
     [Json.jobj
       [("name", Json.jstr "Build"),
        ("status", Json.jstr "success"),
        ("run_after", Json.jarr []),
        ("run_always", Json.jint 1),
        ("aquire_semaphore", Json.jarr []),
        ("aquired_semaphore", Json.jstr ""),
        ("started", Json.null),
        ("finished", Json.null)]])]

/-- `exampleStateKvs` with an extra top-level field `color` not in the
schema. -/
def unknownTopKvs : List (String × Json) :=
  [("commit", Json.jstr "c0"),
   ("branch", Json.jstr "main"),
   ("repo_name", Json.jstr "repo"),
   ("log_url", Json.jstr "url"),
   ("identifier", Json.jstr "1_x"),
   ("status", Json.jstr "success"),
   ("started", Json.jfloat 3),
   ("finished", Json.null),
   ("tasks", Json.jarr [Json.jobj exampleTaskKvs]),
   ("color", Json.null)]

/-- `exampleStateKvs` whose task object carries an extra field `color` not
in the `TaskSnapshot` schema. -/
def unknownNestedKvs : List (String × Json) :=
  [("commit", Json.jstr "c0"),
   ("branch", Json.jstr "main"),
   ("repo_name", Json.jstr "repo"),
   ("log_url", Json.jstr "url"),
   ("identifier", Json.jstr "1_x"),
   ("status", Json.jstr "success"),
   ("started", Json.jfloat 3),
   ("finished", Json.null),
   ("tasks", Json.jarr
     [Json.jobj
       [("name", Json.jstr "Build"),
        ("status", Json.jstr "success"),
        ("run_after", Json.jarr []),
        ("run_always", Json.jbool false),
        ("aquire_semaphore", Json.jarr []),
        ("aquired_semaphore", Json.jstr ""),
        ("started", Json.null),
        ("finished", Json.null),
        ("color", Json.null)]])]

/-- Claim C1 fails on the code at two concrete inputs: on the empty list the
code derives skipped where the spec derivation gives not_started, and on
`[waiting_for_semaphore, failed]` the code derives failed where the spec
derivation (any task waiting on a semaphore) gives waiting_for_semaphore. -/
theorem C1_counterexample :
    ((get_overall_status [] == specOverallStatus []) = false
        ∧ get_overall_status [] = Status.skipped
        ∧ specOverallStatus [] = Status.not_started)
      ∧ ((get_overall_status [Status.waiting_for_semaphore, Status.failed]
            == specOverallStatus [Status.waiting_for_semaphore, Status.failed])
            = false
        ∧ get_overall_status [Status.waiting_for_semaphore, Status.failed]
            = Status.failed
        ∧ specOverallStatus [Status.waiting_for_semaphore, Status.failed]
            = Status.waiting_for_semaphore) := by
  decide

/-- Claim C1 (amended): for every list of task statuses the derived overall
run status equals the amended derivation: skipped if every task is skipped
(hence skipped, not not_started, for the empty list); otherwise success if
every task is success or skipped; otherwise running if any task is running;
else waiting_for_semaphore if every task is waiting_for_semaphore or
waiting_for_task; else waiting_for_task if any task is waiting_for_task;
else failed. -/
theorem C1_overall_status_amended :
    ∀ l, get_overall_status l = amendedOverallStatus l := by
  intro l
  simp only [get_overall_status, amendedOverallStatus, List.all_eq_true,
    List.contains, List.elem_iff, beq_iff_eq, Bool.or_eq_true,
    decide_eq_true_eq]

/-- Claim C2 fails on the code: a task with a nonempty `run_after` list and
a nonempty `aquire_semaphore` list whose dependencies and run succeed is
assigned the status sequence `not_started, waiting_for_task, running,
waiting_for_semaphore, running, success` — `wait_for_tasks` assigns
`running` on its way out, so the task moves from `running` back to
`waiting_for_semaphore`, which is not one of the spec's two paths. -/
theorem C2_counterexample :
    statusTrace ⟨true, false, false, true, false, RunOutcome.ok⟩
        = [Status.not_started, Status.waiting_for_task, Status.running,
            Status.waiting_for_semaphore, Status.running, Status.success]
      ∧ specStatusPaths.contains
          (statusTrace ⟨true, false, false, true, false, RunOutcome.ok⟩)
          = false := by
  decide

/-- Claim C2 (amended): for every task executed by the scheduler, the
sequence of statuses assigned follows `not_started → (waiting_for_task →
running)? → (waiting_for_semaphore)? → running → {success|failed|skipped}`,
where the sequence may instead terminate early in `failed` directly after
`waiting_for_task` (dependency lookup error) or `waiting_for_semaphore`
(acquisition error), or in `skipped` directly after `waiting_for_task`
(an unsuccessful dependency); in particular a task with both dependencies
and a semaphore does pass from `running` back to `waiting_for_semaphore`;
and `finished` is set exactly once, after the final status. -/
theorem C2_status_paths_amended :
    ∀ cfg : TaskCfg,
      statusTrace cfg ∈ amendedStatusPaths
        ∧ finishedOnceAfterFinalStatus (taskRun cfg) = true := by
  decide

/-- Claim C10: if a task's `run_after` list contains a class with no
instance in the run's task list, the lookup exception makes the worker
finish with status `failed` (not `skipped`), record the exception, set its
`finished` timestamp, and fire its `completed` event last, so dependents
are still woken. -/
theorem C10_missing_dep_fails :
    ∀ cfg : TaskCfg, cfg.hasRunAfter = true → cfg.depLookupFails = true →
      statusTrace cfg
          = [Status.not_started, Status.waiting_for_task, Status.failed]
        ∧ Ev.recordExc ∈ taskRun cfg
        ∧ Ev.setFinished ∈ taskRun cfg
        ∧ (taskRun cfg).getLast? = some Ev.setCompleted := by
  decide

/-- Folding string append over a list starting from `a` prepends `a` to the
fold from the empty string. -/
theorem foldl_append_init (L : List String) :
    ∀ a : String,
      L.foldl (fun r s => r ++ s) a = a ++ L.foldl (fun r s => r ++ s) "" := by
  induction L with
  | nil => intro a; simp
  | cons x xs ih =>
      intro a
      simp only [List.foldl]
      rw [ih (a ++ x), ih ("" ++ x)]
      simp [String.append_assoc]

/-- `String.join` of a cons. -/
theorem join_cons (x : String) (xs : List String) :
    String.join (x :: xs) = x ++ String.join xs := by
  simp only [String.join, List.foldl]
  rw [foldl_append_init xs ("" ++ x)]
  simp

/-- The accumulator-generalized behaviour of the `stream_handler` loop: the
first component collects the raw lines unchanged, the second the processed
lines. -/
theorem stream_handler_loop (C : List String) :
    ∀ (L : List String) (a : String) (b : List String),
      L.foldl (fun acc raw => (acc.1 ++ raw, acc.2 ++ [processLine C raw])) (a, b)
        = (a ++ String.join L, b ++ L.map (processLine C)) := by
  intro L
  induction L with
  | nil => intro a b; simp [String.join]
  | cons x xs ih =>
      intro a b
      simp only [List.foldl, List.map]
      rw [ih, join_cons]
      simp [String.append_assoc]

/-- Claim C9: for every command, censor list, and child output, the bytes
returned by `run_command` on success (and carried in
`ProcessError.stdout`/`stderr` on failure) are the raw concatenation of the
child's output lines, unaffected by the censor list; the censor
substitution and carriage-return stripping appear only in the processed
lines handed to the queue/printer. -/
theorem C9_raw_output_uncensored :
    ∀ (L eL C : List String) (ec : Int) (s : String) (e : ProcessError),
      (stream_handler L C).1 = String.join L
        ∧ (stream_handler L C).2 = L.map (processLine C)
        ∧ (run_command false L eL ec C = Except.ok s → s = String.join L)
        ∧ (run_command false L eL ec C = Except.error e →
            e.stdout = some (String.join L) ∧ e.stderr = some (String.join eL)) := by
  intro L eL C ec s e
  have h : stream_handler L C = (String.join L, L.map (processLine C)) := by
    simpa [stream_handler] using stream_handler_loop C L "" []
  have he : stream_handler eL C = (String.join eL, eL.map (processLine C)) := by
    simpa [stream_handler] using stream_handler_loop C eL "" []
  refine ⟨by rw [h], by rw [h], ?_, ?_⟩
  · intro hok
    by_cases hec : ec = 0
    · simp only [run_command, if_neg (Bool.false_ne_true), hec] at hok
      simp only [h] at hok
      simp at hok
      exact hok.symm
    · simp [run_command, hec] at hok
  · intro herr
    by_cases hec : ec = 0
    · simp [run_command, hec] at herr
    · have h2 : ProcessError.mk ("Exit code: " ++ toString ec)
          (some (String.join L)) (some (String.join eL)) (some ec) = e := by
        simpa [run_command, h, he, hec] using herr
      rw [← h2]
      exact ⟨rfl, rfl⟩

/-- Witness for C9 at a concrete run: one stdout line containing the
censored word, exit code 0 for the success case and exit code 1 for the
failure case (the theorem is applied twice). -/
theorem C9_witness :
    ((run_command false ["secret out\n"] ["err\n"] 0 ["secret"]
          = Except.ok "secret out\n" →
        ("secret out\n" : String) = String.join ["secret out\n"])
      ∧ (run_command false ["secret out\n"] ["err\n"] 1 ["secret"]
            = Except.error
                { message := "Exit code: 1"
                  stdout := some "secret out\n"
                  stderr := some "err\n"
                  exit_code := some 1 } →
          ProcessError.stdout
              { message := "Exit code: 1"
                stdout := some "secret out\n"
                stderr := some "err\n"
                exit_code := some 1 }
              = some (String.join ["secret out\n"])
            ∧ ProcessError.stderr
                { message := "Exit code: 1"
                  stdout := some "secret out\n"
                  stderr := some "err\n"
                  exit_code := some 1 }
                = some (String.join ["err\n"])))
      ∧ run_command false ["secret out\n"] ["err\n"] 0 ["secret"]
          = Except.ok "secret out\n" :=
  ⟨⟨(C9_raw_output_uncensored ["secret out\n"] ["err\n"] ["secret"] 0
        "secret out\n" { message := "" }).2.2.1,
    (C9_raw_output_uncensored ["secret out\n"] ["err\n"] ["secret"] 1
        "secret out\n"
        { message := "Exit code: 1"
          stdout := some "secret out\n"
          stderr := some "err\n"
          exit_code := some 1 }).2.2.2⟩,
    by rfl⟩

/-- Claim C3: `tasks.py` imports `NonZeroExit` from `minimalci.executors`
(line 11) and special-cases it in `_run` (line 243), but
`minimalci/executors.py` defines no `NonZeroExit`; the raised process
failure is `ProcessError`, so the import of `minimalci.tasks` fails and the
`"Task failed: <e>"` special case can never apply. -/
theorem C3_nonzeroexit_missing :
    ("NonZeroExit" ∈ tasksImportsFromExecutors
        ∧ executorsModuleNames.contains "NonZeroExit" = false)
      ∧ "ProcessError" ∈ executorsModuleNames := by
  decide

/-- Claim C4 fails on the code: with the kill event unset and the process
still running, the `kill_thread` wait loop exits through its timeout branch
when the elapsed time is LESS than the timeout (here 1 s elapsed of a
100 s timeout) and then proceeds to the SIGTERM/SIGKILL escalation, while
once the timeout has actually passed (150 s of 100) the branch no longer
fires; the comparison in `kill_thread` is inverted. -/
theorem C4_timeout_comparison_inverted :
    kill_thread_times_out false false 1 (some 100) = true
      ∧ kill_thread_times_out false false 150 (some 100) = false
      ∧ kill_signals true false = [Sig.sigterm, Sig.sigkill] := by
  decide

/-- Claim C8: each deletion operation (`safe_del_tmp_file`,
`safe_del_tmp_file_atexit`, `Executor._safe_del_tmp_file`,
`Executor._safe_del_tmp_dir`) deletes (or issues its `rm` command, or
registers its atexit callback) only when the path's parent is `/tmp`, and
for any path whose parent is not `/tmp` it raises without deleting
anything. -/
theorem C8_deletions_only_under_tmp :
    ∀ (p : PyPath) (fs : FS),
      ((safe_del_tmp_file p fs).1 = none → p.parent = tmpRoot)
        ∧ (p.parent ≠ tmpRoot →
            (safe_del_tmp_file p fs).1 ≠ none ∧ (safe_del_tmp_file p fs).2 = fs)
        ∧ ((safe_del_tmp_file_atexit p).2 ≠ none → p.parent = tmpRoot)
        ∧ (p.parent ≠ tmpRoot → (safe_del_tmp_file_atexit p).2 = none)
        ∧ ((Executor_safe_del_tmp_file p).2 ≠ none → p.parent = tmpRoot)
        ∧ (p.parent ≠ tmpRoot → (Executor_safe_del_tmp_file p).2 = none)
        ∧ ((Executor_safe_del_tmp_dir p).2 ≠ none → p.parent = tmpRoot)
        ∧ (p.parent ≠ tmpRoot → (Executor_safe_del_tmp_dir p).2 = none) := by
  intro p fs
  by_cases habs : p.absolute
  · by_cases hpar : p.parent = tmpRoot
    · simp [safe_del_tmp_file, safe_del_tmp_file_atexit,
        Executor_safe_del_tmp_file, Executor_safe_del_tmp_dir,
        assert_path_in_tmp, habs, hpar]
    · simp [safe_del_tmp_file, safe_del_tmp_file_atexit,
        Executor_safe_del_tmp_file, Executor_safe_del_tmp_dir,
        assert_path_in_tmp, habs, hpar]
  · have hpar : p.parent ≠ tmpRoot := by
      intro hc
      exact habs (by rw [show p.absolute = p.parent.absolute from rfl, hc]; rfl)
    simp [safe_del_tmp_file, safe_del_tmp_file_atexit,
      Executor_safe_del_tmp_file, Executor_safe_del_tmp_dir,
      assert_path_in_tmp, habs, hpar]

/-- Witness for C8: the in-`/tmp` path `/tmp/exe_x` passes each check, and
the out-of-`/tmp` path `/etc/passwd` makes every deletion operation raise
without deleting; each hypothesis of the theorem is discharged at one of
the two paths. -/
theorem C8_witness :
    PyPath.parent ⟨true, ["tmp", "exe_x"]⟩ = tmpRoot
      ∧ ((safe_del_tmp_file ⟨true, ["etc", "passwd"]⟩ []).1 ≠ none
          ∧ (safe_del_tmp_file ⟨true, ["etc", "passwd"]⟩ []).2 = [])
      ∧ (safe_del_tmp_file_atexit ⟨true, ["etc", "passwd"]⟩).2 = none
      ∧ (Executor_safe_del_tmp_file ⟨true, ["etc", "passwd"]⟩).2 = none
      ∧ (Executor_safe_del_tmp_dir ⟨true, ["etc", "passwd"]⟩).2 = none
      ∧ PyPath.parent ⟨true, ["tmp", "exe_y"]⟩ = tmpRoot
      ∧ PyPath.parent ⟨true, ["tmp", "exe_z"]⟩ = tmpRoot
      ∧ PyPath.parent ⟨true, ["tmp", "exe_w"]⟩ = tmpRoot :=
  ⟨(C8_deletions_only_under_tmp ⟨true, ["tmp", "exe_x"]⟩ []).1 rfl,
    (C8_deletions_only_under_tmp ⟨true, ["etc", "passwd"]⟩ []).2.1 (by decide),
    (C8_deletions_only_under_tmp ⟨true, ["etc", "passwd"]⟩ []).2.2.2.1
      (by decide),
    (C8_deletions_only_under_tmp ⟨true, ["etc", "passwd"]⟩ []).2.2.2.2.2.1
      (by decide),
    (C8_deletions_only_under_tmp ⟨true, ["etc", "passwd"]⟩ []).2.2.2.2.2.2.2
      (by decide),
    (C8_deletions_only_under_tmp ⟨true, ["tmp", "exe_y"]⟩ []).2.2.1
      (by simp [safe_del_tmp_file_atexit, assert_path_in_tmp, tmpRoot,
        PyPath.parent]),
    (C8_deletions_only_under_tmp ⟨true, ["tmp", "exe_z"]⟩ []).2.2.2.2.1
      (by decide),
    (C8_deletions_only_under_tmp ⟨true, ["tmp", "exe_w"]⟩ []).2.2.2.2.2.2.1
      (by decide)⟩

/-- `splitU` never returns the empty list of pieces. -/
theorem splitU_ne_nil : ∀ l : List Char, splitU l ≠ [] := by
  intro l
  induction l with
  | nil => simp [splitU]
  | cons c rest ih =>
      cases h : splitU rest with
      | nil => exact absurd h ih
      | cons s ss =>
          simp only [splitU, h]
          split <;> simp

/-- Prepending underscore-free characters extends the first piece of a
split. -/
theorem splitU_append_no_us :
    ∀ (d l s : List Char) (ss : List (List Char)),
      (∀ c ∈ d, ¬c = '_') → splitU l = s :: ss →
        splitU (d ++ l) = (d ++ s) :: ss := by
  intro d
  induction d with
  | nil =>
      intro l s ss _ h
      simpa using h
  | cons c t ih =>
      intro l s ss hd h
      have hc : ¬c = '_' := hd c (List.mem_cons_self c t)
      have h2 := ih l s ss (fun x hx => hd x (List.mem_cons_of_mem c hx)) h
      simp [splitU, h2, hc]

/-- A string without underscores splits into a single piece. -/
theorem splitU_no_us (l : List Char) (h : ∀ c ∈ l, ¬c = '_') :
    splitU l = [l] := by
  simpa using splitU_append_no_us l [] [] [] h rfl

/-- A decimal digit is not an underscore. -/
theorem digit_ne_us {c : Char} (h : c.isDigit = true) : ¬c = '_' := by
  intro hc
  subst hc
  exact absurd h (by decide)

/-- An ASCII letter or digit is not an underscore. -/
theorem alnum_ne_us {c : Char} (h : legalShaChar c = true) : ¬c = '_' := by
  intro hc
  subst hc
  exact absurd h (by decide)

/-- A decimal digit is not Python `int()` whitespace. -/
theorem digit_not_ws {c : Char} (h : c.isDigit = true) :
    pyWhitespace.contains c = false := by
  cases hcc : pyWhitespace.contains c with
  | false => rfl
  | true =>
      exfalso
      have hmem : c ∈ pyWhitespace := List.elem_iff.mp hcc
      simp only [pyWhitespace, List.mem_cons, List.not_mem_nil, or_false] at hmem
      rcases hmem with rfl | rfl | rfl | rfl | rfl | rfl <;>
        exact absurd h (by decide)

/-- A decimal digit is not a sign character. -/
theorem digit_ne_sign {c : Char} (h : c.isDigit = true) :
    (c == '+' || c == '-') = false := by
  have h1 : ¬c = '+' := by
    intro hc; subst hc; exact absurd h (by decide)
  have h2 : ¬c = '-' := by
    intro hc; subst hc; exact absurd h (by decide)
  simp [h1, h2]

/-- `dropWhile q` is the identity on lists all of whose elements satisfy a
predicate excluding `q`. -/
theorem dropWhile_eq_self_of_all {p q : Char → Bool}
    (hpq : ∀ c, p c = true → q c = false) :
    ∀ l : List Char, l.all p = true → l.dropWhile q = l := by
  intro l hl
  cases l with
  | nil => rfl
  | cons c t =>
      have hc : p c = true := by
        simp only [List.all_cons, Bool.and_eq_true] at hl
        exact hl.1
      simp [List.dropWhile_cons, hpq c hc]

/-- `pyStrip` is the identity on nonempty digit strings. -/
theorem pyStrip_digits (l : List Char) (h : l.all Char.isDigit = true) :
    pyStrip l = l := by
  unfold pyStrip
  rw [dropWhile_eq_self_of_all (fun c hc => digit_not_ws hc) l h,
    dropWhile_eq_self_of_all (fun c hc => digit_not_ws hc) l.reverse
      (by simpa [List.all_reverse] using h),
    List.reverse_reverse]

/-- Python `int()` succeeds on any nonempty digit string. -/
theorem pyIntValid_digits (l : List Char) (hne : ¬l = [])
    (h : l.all Char.isDigit = true) : pyIntValid l = true := by
  unfold pyIntValid
  rw [pyStrip_digits l h]
  cases l with
  | nil => exact absurd rfl hne
  | cons c t =>
      have hc : c.isDigit = true := by
        simp only [List.all_cons, Bool.and_eq_true] at h
        exact h.1
      simp [digit_ne_sign hc, h]

/-- Any identifier matching the spec pattern passes `verify_identifier`. -/
theorem verify_of_matches (l : List Char)
    (h : matchesIdentifierPattern l = true) :
    verify_identifier l = VerifyOutcome.ok := by
  unfold matchesIdentifierPattern at h
  simp only [Bool.and_eq_true] at h
  obtain ⟨hne, hmatch⟩ := h
  cases hrest : l.dropWhile Char.isDigit with
  | nil => rw [hrest] at hmatch; simp at hmatch
  | cons c sha =>
      rw [hrest] at hmatch
      by_cases hc : c = '_'
      · subst hc
        simp only [Bool.and_eq_true, beq_iff_eq] at hmatch
        obtain ⟨hlen, halnum⟩ := hmatch
        have hdigits : (l.takeWhile Char.isDigit).all Char.isDigit = true :=
          List.all_takeWhile
        have hsha : splitU sha = [sha] :=
          splitU_no_us sha fun x hx =>
            alnum_ne_us (List.all_eq_true.mp halnum x hx)
        have husha : splitU ('_' :: sha) = [[], sha] := by
          simp [splitU, hsha]
        have hsplit : splitU l = [l.takeWhile Char.isDigit, sha] := by
          have hl : l.takeWhile Char.isDigit ++ ('_' :: sha) = l := by
            rw [← hrest]
            exact List.takeWhile_append_dropWhile Char.isDigit l
          have := splitU_append_no_us (l.takeWhile Char.isDigit) ('_' :: sha)
            [] [sha]
            (fun x hx => digit_ne_us (List.all_eq_true.mp hdigits x hx)) husha
          rw [hl] at this
          simpa using this
        have hint : pyIntValid (l.takeWhile Char.isDigit) = true :=
          pyIntValid_digits _ (by simpa [List.isEmpty_iff] using hne) hdigits
        unfold verify_identifier
        rw [hsplit]
        simp [hint, hlen, halnum]
      · exfalso
        revert hmatch
        simp [hc]

/-- Claim C6 fails on the code at two concrete inputs: `"abc"` does not
match the pattern, but `identifier.split("_")` unpacking raises an
uncaught `ValueError`, so the response is 500 rather than 400; and
`"+1_"` followed by 40 letters is accepted (Python `int("+1")` succeeds)
even though it does not match `^\d+_[A-Za-z0-9]{40}$`. -/
theorem C6_counterexample :
    (matchesIdentifierPattern "abc".data = false
        ∧ verify_identifier "abc".data = VerifyOutcome.valueError
        ∧ responseStatus (verify_identifier "abc".data) = 500)
      ∧ (matchesIdentifierPattern
            "+1_aaaaaaaaaaaaaaaaaaaaaaaaaaaaaaaaaaaaaaaa".data = false
          ∧ verify_identifier
              "+1_aaaaaaaaaaaaaaaaaaaaaaaaaaaaaaaaaaaaaaaa".data
              = VerifyOutcome.ok) := by
  decide

/-- Claim C6 (amended): every identifier matching `^\d+_[A-Za-z0-9]{40}$`
is accepted; a 400 response is produced exactly for the `ClientError`
outcomes (sha of wrong length or with an illegal character, reached only
after the underscore split and `int()` parse succeed); structurally
malformed identifiers (wrong number of underscore-separated pieces, or a
first piece `int()` rejects) raise an uncaught `ValueError`, answered with
HTTP 500, not 400 — and acceptance is strictly wider than the pattern
because `int()` also accepts signs and surrounding whitespace. -/
theorem C6_identifier_validation_amended :
    ∀ s : String,
      (matchesIdentifierPattern s.data = true →
          verify_identifier s.data = VerifyOutcome.ok)
        ∧ (responseStatus (verify_identifier s.data) = 400
            ↔ ∃ m, verify_identifier s.data = VerifyOutcome.clientError m)
        ∧ (verify_identifier s.data = VerifyOutcome.valueError →
            responseStatus (verify_identifier s.data) = 500) := by
  intro s
  refine ⟨verify_of_matches s.data, ?_, ?_⟩
  · cases h : verify_identifier s.data <;> simp [responseStatus, h]
  · intro h
    rw [h]
    rfl

/-- Witness for C6 at concrete identifiers: a matching identifier is
accepted, and the non-matching `"abc"` yields HTTP 500. -/
theorem C6_witness :
    verify_identifier "12_aaaaaaaaaaaaaaaaaaaaaaaaaaaaaaaaaaaaaaaa".data
        = VerifyOutcome.ok
      ∧ responseStatus (verify_identifier "abc".data) = 500 :=
  ⟨(C6_identifier_validation_amended
      "12_aaaaaaaaaaaaaaaaaaaaaaaaaaaaaaaaaaaaaaaa").1 (by decide),
    (C6_identifier_validation_amended "abc").2.2 (by decide)⟩

/-- Claim C7 fails on the code at a concrete input: in `--read` mode
(`add_self=False, remove_self=False`), a queue file holding one entry whose
pid is not running is rewritten — the dead entry is pruned and the file
content changes to the pruned queue. -/
theorem C7_counterexample :
    ((read_and_update_queue ⟨1, [⟨42, "dead"⟩]⟩ [] 7 "" false false).2
          == (⟨1, [⟨42, "dead"⟩]⟩ : QFile))
        = false
      ∧ (read_and_update_queue ⟨1, [⟨42, "dead"⟩]⟩ [] 7 "" false false).2
          = (⟨1, []⟩ : QFile) := by
  decide

/-- Claim C7 (amended): the `--read` invocation returns `(concurrency,
q)` where `q` is the stored queue with entries whose pid is not running
pruned, and it is read-only exactly when every stored entry's pid is
running; otherwise it rewrites the file to the pruned queue. -/
theorem C7_read_mode_amended :
    ∀ (file : QFile) (running : List Nat) (self_pid : Nat)
      (self_description : String),
      (read_and_update_queue file running self_pid self_description
            false false).1.1
          = file.concurrency
        ∧ (read_and_update_queue file running self_pid self_description
              false false).1.2
            = file.queue.filter (fun e => running.contains e.pid)
        ∧ ((read_and_update_queue file running self_pid self_description
              false false).2
              = file
            ↔ ∀ e ∈ file.queue, running.contains e.pid = true) := by
  intro f running self_pid self_description
  refine ⟨rfl, rfl, ?_⟩
  constructor
  · intro h
    by_cases hc :
        f.queue.filter (fun e => running.contains e.pid) = f.queue
    · exact List.filter_eq_self.mp hc
    · exfalso
      simp only [read_and_update_queue, Bool.false_and, Bool.false_eq_true,
        if_false, ne_eq, hc, not_false_eq_true, if_true] at h
      exact hc (congrArg QFile.queue h)
  · intro h
    have hc : f.queue.filter (fun e => running.contains e.pid) = f.queue :=
      List.filter_eq_self.mpr h
    simp only [read_and_update_queue, Bool.false_and, Bool.false_eq_true,
      if_false, hc]
    simp

/-- Parsing back a serialized list of strings recovers the list. -/
theorem parseEach_jstr (l : List String) :
    parseEach parsePyStr (l.map Json.jstr) = Except.ok l := by
  induction l with
  | nil => rfl
  | cons x xs ih => simp [parseEach, parsePyStr, ih]

/-- `List[str]` round trip. -/
theorem parseListStr_roundtrip (l : List String) :
    parseListStr (Json.jarr (l.map Json.jstr)) = Except.ok l := by
  simp [parseListStr, pyIter, parseEach_jstr]

/-- `Optional[float]` round trip. -/
theorem parseOptFloat_roundtrip (o : Option ℚ) :
    parseOptFloat (optFloatToJson o) = Except.ok o := by
  cases o <;> rfl

/-- `TaskSnapshot` round trip: parsing the `asdict` image recovers the
value. -/
theorem parseTaskSnapshot_roundtrip (t : TaskSnapshot) :
    parseTaskSnapshot (taskSnapshotToJson t) = Except.ok t := by
  obtain ⟨n, st, ra, rw, aq, aqd, s, f⟩ := t
  simp [parseTaskSnapshot, taskSnapshotToJson, parseFields, taskSetField,
    parsePyStr, parsePyBool, parseListStr_roundtrip,
    parseOptFloat_roundtrip, Except.map]

/-- Parsing back a serialized list of task snapshots recovers the list. -/
theorem parseEach_task (l : List TaskSnapshot) :
    parseEach parseTaskSnapshot (l.map taskSnapshotToJson) = Except.ok l := by
  induction l with
  | nil => rfl
  | cons t ts ih => simp [parseEach, parseTaskSnapshot_roundtrip, ih]

/-- `List[TaskSnapshot]` round trip. -/
theorem parseListTask_roundtrip (l : List TaskSnapshot) :
    parseListTask (Json.jarr (l.map taskSnapshotToJson)) = Except.ok l := by
  simp [parseListTask, pyIter, parseEach_task]

/-- `StateSnapshot` round trip. -/
theorem parseStateSnapshot_roundtrip (x : StateSnapshot) :
    parseStateSnapshot (stateSnapshotToJson x) = Except.ok x := by
  obtain ⟨c, b, rn, lu, id, st, s, f, ts⟩ := x
  simp [parseStateSnapshot, stateSnapshotToJson, parseFields, stateSetField,
    parsePyStr, parsePyFloat, parseListTask_roundtrip,
    parseOptFloat_roundtrip, Except.map]

/-- A successful `stateSetField` step only happens on declared field
names. -/
theorem stateSetField_ok_key (acc : StateAcc) (k : String) (v : Json)
    (acc2 : StateAcc) (h : stateSetField acc k v = Except.ok acc2) :
    k ∈ stateFieldNames := by
  unfold stateSetField at h
  split_ifs at h with h1 h2 h3 h4 h5 h6 h7 h8 h9 <;>
    simp_all [stateFieldNames]

/-- If the dict comprehension succeeds, every processed key was accepted
by the field-setter. -/
theorem parseFields_ok_keys {α : Type}
    (setF : α → String → Json → Except String α) (names : List String)
    (hset : ∀ acc k v acc2, setF acc k v = Except.ok acc2 → k ∈ names) :
    ∀ (kvs : List (String × Json)) (acc acc2 : α),
      parseFields setF acc kvs = Except.ok acc2 → ∀ kv ∈ kvs, kv.1 ∈ names := by
  intro kvs
  induction kvs with
  | nil =>
      intro acc acc2 _ kv hkv
      simp at hkv
  | cons p rest ih =>
      intro acc acc2 h kv hkv
      cases hstep : setF acc p.1 p.2 with
      | error e =>
          rw [parseFields, hstep] at h
          cases h
      | ok acc3 =>
          rw [parseFields, hstep] at h
          rcases List.mem_cons.mp hkv with rfl | hmem
          · exact hset acc kv.1 kv.2 acc3 hstep
          · exact ih acc3 acc2 h kv hmem

/-- A successful `StateSnapshot` load only ever saw declared field
names. -/
theorem parseStateSnapshot_ok_keys (kvs : List (String × Json))
    (v : StateSnapshot) (h : parseStateSnapshot (Json.jobj kvs) = Except.ok v) :
    ∀ kv ∈ kvs, kv.1 ∈ stateFieldNames := by
  cases hp : parseFields stateSetField {} kvs with
  | error e =>
      simp only [parseStateSnapshot, hp] at h
      cases h
  | ok acc =>
      exact parseFields_ok_keys stateSetField stateFieldNames
        stateSetField_ok_key kvs {} acc hp

/-- `isinstance(data, str)` inversion: a successful `str`-field parse only
happens on a JSON string. -/
theorem parsePyStr_ok_inv (j : Json) (s : String)
    (h : parsePyStr j = Except.ok s) : j = Json.jstr s := by
  cases j <;> simp_all [parsePyStr]

/-- `isinstance(data, float)` inversion: a successful `float`-field parse
only happens on a JSON float token (integer tokens and everything else are
rejected). -/
theorem parsePyFloat_ok_inv (j : Json) (q : ℚ)
    (h : parsePyFloat j = Except.ok q) : j = Json.jfloat q := by
  cases j <;> simp_all [parsePyFloat]

/-- `isinstance(data, bool)` inversion: a successful `bool`-field parse
only happens on a JSON boolean. -/
theorem parsePyBool_ok_inv (j : Json) (b : Bool)
    (h : parsePyBool j = Except.ok b) : j = Json.jbool b := by
  cases j <;> simp_all [parsePyBool]

/-- `Optional[float]` inversion: a successful parse only happens on `null`
or a JSON float token. -/
theorem parseOptFloat_ok_inv (j : Json) (o : Option ℚ)
    (h : parseOptFloat j = Except.ok o) : j = optFloatToJson o := by
  cases j <;> simp_all [parseOptFloat, parsePyFloat, optFloatToJson,
    Except.map] <;> simp [← h, optFloatToJson]

/-- A successful `taskSetField` step only happens on declared field
names. -/
theorem taskSetField_ok_key (acc : TaskAcc) (k : String) (v : Json)
    (acc2 : TaskAcc) (h : taskSetField acc k v = Except.ok acc2) :
    k ∈ taskFieldNames := by
  unfold taskSetField at h
  split_ifs at h with h1 h2 h3 h4 h5 h6 h7 h8 <;>
    simp_all [taskFieldNames]

/-- If the dict comprehension succeeds, every processed pair was accepted
by a successful field-setter step. -/
theorem parseFields_ok_steps {α : Type}
    (setF : α → String → Json → Except String α) :
    ∀ (kvs : List (String × Json)) (acc acc2 : α),
      parseFields setF acc kvs = Except.ok acc2 →
        ∀ kv ∈ kvs, ∃ a a2, setF a kv.1 kv.2 = Except.ok a2 := by
  intro kvs
  induction kvs with
  | nil =>
      intro acc acc2 _ kv hkv
      simp at hkv
  | cons p rest ih =>
      intro acc acc2 h kv hkv
      cases hstep : setF acc p.1 p.2 with
      | error e =>
          rw [parseFields, hstep] at h
          cases h
      | ok acc3 =>
          rw [parseFields, hstep] at h
          rcases List.mem_cons.mp hkv with rfl | hmem
          · exact ⟨acc, acc3, hstep⟩
          · exact ih acc3 acc2 h kv hmem

/-- If the item comprehension succeeds, every item parsed successfully. -/
theorem parseEach_ok_mem {α : Type} (p : Json → Except String α) :
    ∀ (items : List Json) (xs : List α),
      parseEach p items = Except.ok xs →
        ∀ j ∈ items, ∃ x, p j = Except.ok x := by
  intro items
  induction items with
  | nil =>
      intro xs _ j hj
      simp at hj
  | cons a rest ih =>
      intro xs h j hj
      cases hp : p a with
      | error e =>
          rw [parseEach, hp] at h
          cases h
      | ok x =>
          rw [parseEach, hp] at h
          rcases List.mem_cons.mp hj with rfl | hmem
          · exact ⟨x, hp⟩
          · cases hr : parseEach p rest with
            | error e =>
                rw [hr] at h
                cases h
            | ok xs2 => exact ih xs2 hr j hmem

/-- A successful `TaskSnapshot` parse only ever saw declared field
names. -/
theorem parseTaskSnapshot_ok_keys (kvs : List (String × Json))
    (t : TaskSnapshot) (h : parseTaskSnapshot (Json.jobj kvs) = Except.ok t) :
    ∀ kv ∈ kvs, kv.1 ∈ taskFieldNames := by
  cases hp : parseFields taskSetField {} kvs with
  | error e =>
      simp only [parseTaskSnapshot, hp] at h
      cases h
  | ok acc =>
      exact parseFields_ok_keys taskSetField taskFieldNames
        taskSetField_ok_key kvs {} acc hp

/-- A successful `stateSetField` step at the `tasks` key means the value
parsed as a task list. -/
theorem stateSetField_tasks_inv (acc acc2 : StateAcc) (w : Json)
    (h : stateSetField acc "tasks" w = Except.ok acc2) :
    ∃ ts, parseListTask w = Except.ok ts := by
  cases hw : parseListTask w with
  | ok ts => exact ⟨ts, rfl⟩
  | error e =>
      exfalso
      simp [stateSetField, hw, Except.map] at h

/-- A successful `StateSnapshot` load also only ever saw declared
`TaskSnapshot` field names inside the task objects of its `tasks` array. -/
theorem parseStateSnapshot_ok_task_keys (kvs : List (String × Json))
    (v : StateSnapshot) (h : parseStateSnapshot (Json.jobj kvs) = Except.ok v) :
    ∀ items : List Json, ("tasks", Json.jarr items) ∈ kvs →
      ∀ kvs2 : List (String × Json), Json.jobj kvs2 ∈ items →
        ∀ kv2 ∈ kvs2, kv2.1 ∈ taskFieldNames := by
  intro items hitems kvs2 hkvs2 kv2 hkv2
  cases hp : parseFields stateSetField {} kvs with
  | error e =>
      simp only [parseStateSnapshot, hp] at h
      cases h
  | ok acc =>
      obtain ⟨a, a2, hset⟩ :=
        parseFields_ok_steps stateSetField kvs {} acc hp
          ("tasks", Json.jarr items) hitems
      obtain ⟨ts, hts⟩ := stateSetField_tasks_inv a a2 (Json.jarr items) hset
      have heach : parseEach parseTaskSnapshot items = Except.ok ts := by
        simpa [parseListTask, pyIter] using hts
      obtain ⟨t, ht⟩ :=
        parseEach_ok_mem parseTaskSnapshot items ts heach (Json.jobj kvs2) hkvs2
      exact parseTaskSnapshot_ok_keys kvs2 t ht kv2 hkv2

/-- Claim C5 fails on the code at a concrete input: a snapshot document
whose `tasks` field holds `{}` — a JSON object, not the declared
`List[TaskSnapshot]` — loads successfully (iterating the empty object
yields no items, so `tasks` silently becomes the empty list) instead of
failing. -/
theorem C5_counterexample :
    ("tasks", Json.jobj []) ∈ badTasksKvs
      ∧ parseStateSnapshot (Json.jobj badTasksKvs)
          = Except.ok ⟨"c0", "main", "repo", "url", "1_x", "success", 3,
              none, []⟩ := by
  constructor
  · simp [badTasksKvs]
  · rfl

/-- Claim C5 (amended): `load(save(x)) = x` for every well-typed
`StateSnapshot` value; a load that succeeds only ever saw schema field
names at dataclass positions — every top-level key is a declared
`StateSnapshot` field and every key of every task object in the `tasks`
array is a declared `TaskSnapshot` field — so a document with an unknown
field name at either level fails the load (`KeyError`, instantiated at
`unknownTopKvs` and `unknownNestedKvs`); simple-typed fields (`str`,
`float`, `bool`, `Optional[float]`) accept only values of the declared
type via `isinstance`, so mismatched values fail the load with
`TypeError` (instantiated for a JSON-integer and a string `started`, and a
JSON-integer `run_always` inside a task object); but `List`-typed fields
do not type-check their value: any iterable JSON value is accepted via
Python iteration — the exhibited document with `tasks = {}` loads as the
empty list, and an object in a `List[str]` position has its keys consumed
as the list's strings. -/
theorem C5_snapshot_roundtrip_amended :
    (∀ x : StateSnapshot,
        parseStateSnapshot (stateSnapshotToJson x) = Except.ok x)
      ∧ (∀ (kvs : List (String × Json)) (v : StateSnapshot),
          parseStateSnapshot (Json.jobj kvs) = Except.ok v →
            ∀ kv ∈ kvs, kv.1 ∈ stateFieldNames)
      ∧ (∀ (kvs : List (String × Json)) (v : StateSnapshot),
          parseStateSnapshot (Json.jobj kvs) = Except.ok v →
            ∀ items : List Json, ("tasks", Json.jarr items) ∈ kvs →
              ∀ kvs2 : List (String × Json), Json.jobj kvs2 ∈ items →
                ∀ kv2 ∈ kvs2, kv2.1 ∈ taskFieldNames)
      ∧ ((∀ (j : Json) (s : String),
            parsePyStr j = Except.ok s → j = Json.jstr s)
          ∧ (∀ (j : Json) (q : ℚ),
              parsePyFloat j = Except.ok q → j = Json.jfloat q)
          ∧ (∀ (j : Json) (b : Bool),
              parsePyBool j = Except.ok b → j = Json.jbool b)
          ∧ (∀ (j : Json) (o : Option ℚ),
              parseOptFloat j = Except.ok o → j = optFloatToJson o))
      ∧ (parseStateSnapshot (Json.jobj mismatchStartedIntKvs)
            = Except.error "TypeError: expected float"
          ∧ parseStateSnapshot (Json.jobj mismatchStartedStrKvs)
              = Except.error "TypeError: expected float"
          ∧ parseStateSnapshot (Json.jobj mismatchNestedBoolKvs)
              = Except.error "TypeError: expected bool"
          ∧ parseStateSnapshot (Json.jobj unknownTopKvs)
              = Except.error "KeyError: color"
          ∧ parseStateSnapshot (Json.jobj unknownNestedKvs)
              = Except.error "KeyError: color")
      ∧ (parseStateSnapshot (Json.jobj badTasksKvs)
            = Except.ok ⟨"c0", "main", "repo", "url", "1_x", "success", 3,
                none, []⟩
          ∧ parseListStr (Json.jobj [("zzz", Json.null)])
              = Except.ok ["zzz"]) :=
  ⟨parseStateSnapshot_roundtrip, parseStateSnapshot_ok_keys,
    parseStateSnapshot_ok_task_keys,
    ⟨parsePyStr_ok_inv, parsePyFloat_ok_inv, parsePyBool_ok_inv,
      parseOptFloat_ok_inv⟩,
    ⟨rfl, rfl, rfl, rfl, rfl⟩, ⟨rfl, rfl⟩⟩

/-- Witness for C5: the unknown-field conjuncts applied to the
successfully-loading `exampleStateKvs` document, at a top-level key and at
a key of its task object, and the four isinstance inversions applied to
values of the declared types. -/
theorem C5_witness :
    ("commit" : String) ∈ stateFieldNames
      ∧ ("name" : String) ∈ taskFieldNames
      ∧ Json.jstr "a" = Json.jstr "a"
      ∧ Json.jfloat 1 = Json.jfloat 1
      ∧ Json.jbool true = Json.jbool true
      ∧ Json.null = optFloatToJson none :=
  ⟨C5_snapshot_roundtrip_amended.2.1 exampleStateKvs exampleState rfl
      ("commit", Json.jstr "c0") (by simp [exampleStateKvs]),
    C5_snapshot_roundtrip_amended.2.2.1 exampleStateKvs exampleState rfl
      [Json.jobj exampleTaskKvs] (by simp [exampleStateKvs])
      exampleTaskKvs (by simp) ("name", Json.jstr "Build")
      (by simp [exampleTaskKvs]),
    C5_snapshot_roundtrip_amended.2.2.2.1.1 (Json.jstr "a") "a" rfl,
    C5_snapshot_roundtrip_amended.2.2.2.1.2.1 (Json.jfloat 1) 1 rfl,
    C5_snapshot_roundtrip_amended.2.2.2.1.2.2.1 (Json.jbool true) true rfl,
    C5_snapshot_roundtrip_amended.2.2.2.1.2.2.2 Json.null none rfl⟩

/-- Witness for C10 at a concrete configuration. -/
theorem C10_witness :
    statusTrace ⟨true, true, false, false, false, RunOutcome.ok⟩
        = [Status.not_started, Status.waiting_for_task, Status.failed]
      ∧ Ev.recordExc ∈ taskRun ⟨true, true, false, false, false, RunOutcome.ok⟩
      ∧ Ev.setFinished ∈ taskRun ⟨true, true, false, false, false, RunOutcome.ok⟩
      ∧ (taskRun ⟨true, true, false, false, false, RunOutcome.ok⟩).getLast?
          = some Ev.setCompleted :=
  C10_missing_dep_fails ⟨true, true, false, false, false, RunOutcome.ok⟩ rfl rfl

end Minimalci
